import Mathlib

/-!
Shallow embedding of the HomGar Home Assistant integration
(custom_components/homgar): the API-client session manager (api.py),
the data-update coordinator (pieces of the integration setup module),
and the sensor entity layer (sensor.py).

Python floats are modelled as rationals, Python `time.time()` as a
rational parameter `now`, and the single `random.uniform(0.1, 0.5)`
draw of a call as a rational parameter `jitter`.  Exceptions are
modelled by `Except` values carrying a record `RaisedErr`; the flag
`isApi` distinguishes the vendor's `HomgarApiException` from every
other Python exception.  Numbers interpolated into an exception
message by the source are exposed as the `waitSeconds` payload field
instead of being formatted into the string.
-/

deriving instance DecidableEq for Except

namespace Homgar

/-- Substring occurrence test on character lists: `subOccurs pat l`
holds exactly when `pat` occurs contiguously inside `l`.  It models
the Python expression `pat in s`. -/
def subOccurs (pat : List Char) : List Char → Bool
  | [] => pat.isEmpty
  | c :: t => pat.isPrefixOf (c :: t) || subOccurs pat t

/-- Python `pat in s` on strings. -/
def strContainsSub (s pat : String) : Bool :=
  subOccurs pat.data s.data

/-- Constant `LOGIN_RETRY_TIMEOUT = 300` seconds from api.py. -/
def LOGIN_RETRY_TIMEOUT : ℚ := 300

/-- Constant `MAX_LOGIN_RETRIES = 3` from api.py. -/
def MAX_LOGIN_RETRIES : Nat := 3

/-- Constant `MIN_BACKOFF_DELAY = 1` from api.py. -/
def MIN_BACKOFF_DELAY : ℚ := 1

/-- Constant `MAX_BACKOFF_DELAY = 60` from api.py. -/
def MAX_BACKOFF_DELAY : ℚ := 60

/-- Model of `HomgarApiClient._calculate_backoff_delay` (api.py):
`base_delay = min(MAX_BACKOFF_DELAY, 2 ** attempt)` followed by
`max(MIN_BACKOFF_DELAY, base_delay * jitter)`, where `jitter` is the
`random.uniform(0.1, 0.5)` draw, passed here as an argument. -/
def calculateBackoffDelay (attempt : Nat) (jitter : ℚ) : ℚ :=
  let baseDelay := min MAX_BACKOFF_DELAY ((2 : ℚ) ^ attempt)
  max MIN_BACKOFF_DELAY (baseDelay * jitter)

/-- Model of `HomgarApiClient._is_authentication_error` (api.py):
`any(indicator in error_str for indicator in auth_indicators)`. -/
def isAuthenticationError (errorStr : String) : Bool :=
  ["401", "403", "unauthorized", "forbidden", "invalid credentials"].any
    fun indicator => strContainsSub errorStr indicator

/-- Model of `HomgarApiClient._is_connection_error` (api.py). -/
def isConnectionError (errorStr : String) : Bool :=
  ["timeout", "connection", "network", "unreachable"].any
    fun indicator => strContainsSub errorStr indicator

/-- A raised Python exception: `isApi` is true exactly for the
vendor's `HomgarApiException`; `msg` is `str(err)`; `waitSeconds` is
the numeric payload the source formats into the rate-limit message
(`none` for every other exception). -/
structure RaisedErr where
  isApi : Bool
  msg : String
  waitSeconds : Option ℚ
deriving DecidableEq, Repr

/-- Mutable session state of `HomgarApiClient`: the `_last_login_time`
and `_login_retry_count` attributes. -/
structure ClientState where
  lastLoginTime : ℚ
  loginRetryCount : Nat
deriving DecidableEq, Repr

/-- Lowercasing as in Python `str.lower`, character by character. -/
def strToLower (s : String) : String :=
  ⟨s.data.map Char.toLower⟩

/-- Round to the nearest integer exactly as Python's `round` does:
halves go to the even neighbour. -/
def roundHalfEven (x : ℚ) : ℤ :=
  let f := ⌊x⌋
  let r := x - (f : ℚ)
  if r < 1 / 2 then f
  else if 1 / 2 < r then f + 1
  else if f % 2 = 0 then f else f + 1

/-- Python `round(x, 1)`: keep one decimal place, ties to even. -/
def pyRound1 (x : ℚ) : ℚ :=
  (roundHalfEven (x * 10) : ℚ) / 10

/-- A home record as consumed by `_update_data`: only its `hid`
attribute is read by the coordinator. -/
structure Home where
  hid : String
deriving DecidableEq, Repr

/-- A device record as it ends up in the coordinator's flat device
list: the identity attributes `mid` and `did` together with the raw
temperature field read by the sensor layer (`temp_mk_current`,
`none` when the attribute is absent or `None`). -/
structure DeviceRec where
  mid : Nat
  did : Nat
  tempMkCurrent : Option ℤ
deriving DecidableEq, Repr

/-- A hub as returned by `get_devices_for_hid`: the hub's own device
record plus its `subdevices` attribute. -/
structure Hub where
  dev : DeviceRec
  subdevices : List DeviceRec
deriving DecidableEq, Repr

/-- The vendor library `homgarapi.HomgarApi` as an oracle: what each
remote call would return or raise during one refresh cycle.  Errors
are arbitrary `RaisedErr` values; `isApi = true` marks a
`HomgarApiException`.  `Option` on the list results models Python
`None` returns, normalized by the client wrappers. -/
structure HomgarApi where
  loginRes : Except RaisedErr Unit
  homesRes : Except RaisedErr (Option (List Home))
  devicesForHidRes : String → Except RaisedErr (Option (List Hub))
  deviceStatusRes : Hub → Except RaisedErr Unit

/-- Model of `HomgarApiClient.ensure_logged_in` (api.py).  `now` is
`time.time()`, `jitter` the `random.uniform(0.1, 0.5)` draw consumed
if `_calculate_backoff_delay` runs.  Returns the outcome together
with the updated client state.  The rate-limit message interpolates
`backoff_delay` formatted to one decimal; that number is exposed in
the `waitSeconds` field. -/
def ensureLoggedIn (api : HomgarApi) (now jitter : ℚ) (st : ClientState) :
    Except RaisedErr Unit × ClientState :=
  if MAX_LOGIN_RETRIES ≤ st.loginRetryCount ∧
      now - st.lastLoginTime < LOGIN_RETRY_TIMEOUT then
    let backoffDelay := calculateBackoffDelay st.loginRetryCount jitter
    (Except.error
      { isApi := true
        msg := "Too many login failures, please wait N seconds before retrying"
        waitSeconds := some (pyRound1 backoffDelay) }, st)
  else
    let st1 := if MAX_LOGIN_RETRIES ≤ st.loginRetryCount then
        { st with loginRetryCount := 0 } else st
    match api.loginRes with
    | Except.ok _ =>
        (Except.ok (), { lastLoginTime := now, loginRetryCount := 0 })
    | Except.error err =>
        let st2 : ClientState :=
          { lastLoginTime := now, loginRetryCount := st1.loginRetryCount + 1 }
        if err.isApi then
          let errorStr := strToLower err.msg
          if isAuthenticationError errorStr then
            (Except.error ⟨true, "Invalid credentials", none⟩, st2)
          else if isConnectionError errorStr then
            (Except.error ⟨true, "Connection timeout", none⟩, st2)
          else
            (Except.error err, st2)
        else
          (Except.error ⟨true, "Login failed: " ++ err.msg, none⟩, st2)

/-- Model of `HomgarApiClient.get_homes` (api.py): a `None` result is
normalized to `[]`; a `HomgarApiException` is re-raised as is; any
other exception is wrapped as a `HomgarApiException`. -/
def getHomes (api : HomgarApi) : Except RaisedErr (List Home) :=
  match api.homesRes with
  | Except.ok homes => Except.ok (homes.getD [])
  | Except.error e =>
      if e.isApi then Except.error e
      else Except.error ⟨true, "Failed to retrieve homes: " ++ e.msg, none⟩

/-- Model of `HomgarApiClient.get_devices_for_hid` (api.py): a falsy
home id (empty string) yields `[]` with a warning; a `None` result is
normalized to `[]`; a `HomgarApiException` is re-raised as is; any
other exception is wrapped. -/
def getDevicesForHid (api : HomgarApi) (hid : String) :
    Except RaisedErr (List Hub) :=
  if hid.isEmpty then Except.ok []
  else
    match api.devicesForHidRes hid with
    | Except.ok devs => Except.ok (devs.getD [])
    | Except.error e =>
        if e.isApi then Except.error e
        else
          Except.error
            ⟨true, "Failed to retrieve devices for home " ++ hid ++ ": " ++ e.msg, none⟩

/-- Model of `HomgarApiClient.get_device_status` (api.py): the
enrichment call for one hub; a `HomgarApiException` is re-raised as
is, any other exception is wrapped.  (The `if not hub` guard of the
source is unreachable from `_update_data`, whose hubs come from a
list and are always truthy.) -/
def getDeviceStatus (api : HomgarApi) (hub : Hub) : Except RaisedErr Unit :=
  match api.deviceStatusRes hub with
  | Except.ok _ => Except.ok ()
  | Except.error e =>
      if e.isApi then Except.error e
      else Except.error ⟨true, "Failed to get status for device: " ++ e.msg, none⟩

/-- The mutable attributes of `HomgarDataUpdateCoordinator` touched by
`_update_data`: the embedded API client state and the `homes` and
`devices` lists. -/
structure CoordState where
  client : ClientState
  homes : List Home
  devices : List DeviceRec
deriving DecidableEq, Repr

/-- The inner loop of `_update_data` over the hubs of one home:
`self.api.get_device_status(hub)` followed by
`self.devices.append(hub); self.devices.extend(hub.subdevices)`.
On an exception the devices accumulated so far are kept (Python
mutates `self.devices` in place). -/
def runHubs (api : HomgarApi) : List Hub → List DeviceRec →
    Except RaisedErr Unit × List DeviceRec
  | [], devs => (Except.ok (), devs)
  | hub :: rest, devs =>
      match getDeviceStatus api hub with
      | Except.error e => (Except.error e, devs)
      | Except.ok _ => runHubs api rest (devs ++ hub.dev :: hub.subdevices)

/-- The outer loop of `_update_data` over homes:
`hubs = self.api.get_devices_for_hid(home.hid)` then the hub loop. -/
def runHomes (api : HomgarApi) : List Home → List DeviceRec →
    Except RaisedErr Unit × List DeviceRec
  | [], devs => (Except.ok (), devs)
  | home :: rest, devs =>
      match getDevicesForHid api home.hid with
      | Except.error e => (Except.error e, devs)
      | Except.ok hubs =>
          match runHubs api hubs devs with
          | (Except.error e, devs1) => (Except.error e, devs1)
          | (Except.ok _, devs1) => runHomes api rest devs1

/-- Model of `HomgarDataUpdateCoordinator._update_data` (the class
method): `ensure_logged_in`, then `self.homes = get_homes()`, then
`self.devices = []` and the two nested loops.  An exception leaves
the attributes as mutated so far: untouched if login or the homes
fetch raised, partially rebuilt if a hub branch raised. -/
def updateData (api : HomgarApi) (now jitter : ℚ) (st : CoordState) :
    Except RaisedErr Unit × CoordState :=
  match ensureLoggedIn api now jitter st.client with
  | (Except.error e, cl) => (Except.error e, { st with client := cl })
  | (Except.ok _, cl) =>
      match getHomes api with
      | Except.error e => (Except.error e, { st with client := cl })
      | Except.ok homes =>
          match runHomes api homes [] with
          | (res, devs) =>
              (res, { client := cl, homes := homes, devices := devs })

/-- Outcome of `_async_update_data`: either the returned dict
`{"homes": ..., "devices": ...}` or a raised `UpdateFailed` with its
message. -/
inductive UpdateResult where
  | snapshot (homes : List Home) (devices : List DeviceRec)
  | updateFailed (msg : String)
deriving DecidableEq, Repr

/-- Model of `HomgarDataUpdateCoordinator._async_update_data` (the
class method): run `_update_data`; on success return the snapshot
dict, on any exception raise `UpdateFailed` (with the
`HomgarApiException` message for vendor errors, the generic message
otherwise). -/
def asyncUpdateData (api : HomgarApi) (now jitter : ℚ) (st : CoordState) :
    UpdateResult × CoordState :=
  match updateData api now jitter st with
  | (Except.ok _, st1) => (UpdateResult.snapshot st1.homes st1.devices, st1)
  | (Except.error e, st1) =>
      (UpdateResult.updateFailed
        ((if e.isApi then "Error communicating with API: "
          else "Unexpected error: ") ++ e.msg), st1)

/-- A published `{homes, devices}` snapshot. -/
structure Snapshot where
  homes : List Home
  devices : List DeviceRec
deriving DecidableEq, Repr

/-- Modelled from the spec: the host runtime's refresh scheduler
(`DataUpdateCoordinator`, spec section 4.4), which is an external
collaborator and not part of this repository.  On a returned snapshot
it publishes it and sets the last-update-success flag; on
`UpdateFailed` it retains the previously published snapshot and
clears the flag. -/
def refreshCycle (api : HomgarApi) (now jitter : ℚ)
    (pub : Option Snapshot) (st : CoordState) :
    Option Snapshot × Bool × CoordState :=
  match asyncUpdateData api now jitter st with
  | (UpdateResult.snapshot hs ds, st1) => (some ⟨hs, ds⟩, true, st1)
  | (UpdateResult.updateFailed _, st1) => (pub, false, st1)

/-- The temperature unit conversion used by the sensor value lambdas
in sensor.py: `round(d.temp_mk_current * 1e-3 - 273.15, 1)`, with the
float constants `1e-3` and `273.15` as exact rationals. -/
def tempFromMilliKelvin (raw : ℤ) : ℚ :=
  pyRound1 ((raw : ℚ) * (1 / 1000) - 27315 / 100)

/-- The full temperature value lambda of `_create_hub_sensors`
(sensor.py): `... if d.temp_mk_current else None`, so both a missing
attribute and the falsy value `0` yield `None`. -/
def tempValueFn (d : DeviceRec) : Option ℚ :=
  match d.tempMkCurrent with
  | none => none
  | some raw => if raw = 0 then none else some (tempFromMilliKelvin raw)

/-- The slice of the coordinator a `HomgarSensor` reads:
`coordinator.last_update_success` and `coordinator.data["devices"]`. -/
structure Coordinator where
  lastUpdateSuccess : Bool
  dataDevices : List DeviceRec
deriving DecidableEq, Repr

/-- A `HomgarSensor` entity: the device record captured at entity
creation and the value lambda.  The lambda returns `none` both for a
`None` value and for a caught `AttributeError`/`TypeError`/
`ValueError`, which `native_value` treats alike. -/
structure HomgarSensor where
  device : DeviceRec
  valueFn : DeviceRec → Option ℚ

/-- Model of the `HomgarSensor.available` property (sensor.py):
`return self.coordinator.last_update_success`. -/
def sensorAvailable (coord : Coordinator) (_s : HomgarSensor) : Bool :=
  coord.lastUpdateSuccess

/-- Model of the `HomgarSensor.native_value` property (sensor.py):
scan `coordinator.data["devices"]` for the first device whose
`(mid, did)` matches the entity's device and apply the value lambda;
return `None` when no device matches.  (The guard for a device
missing `mid`/`did` cannot fire here: the record type carries both.) -/
def nativeValue (coord : Coordinator) (s : HomgarSensor) : Option ℚ :=
  match coord.dataDevices.find?
      (fun d => d.mid = s.device.mid && d.did = s.device.did) with
  | some d => s.valueFn d
  | none => none

/-! Concrete vendor oracles and records used by counterexamples and
witnesses. -/

/-- A vendor oracle for which every call succeeds with empty data. -/
def apiAllOk : HomgarApi where
  loginRes := Except.ok ()
  homesRes := Except.ok (some [])
  devicesForHidRes := fun _ => Except.ok (some [])
  deviceStatusRes := fun _ => Except.ok ()

/-- Two homes, one hub each; the status call for the `mid = 2` hub
raises a `HomgarApiException` while everything else succeeds. -/
def apiHubFail : HomgarApi where
  loginRes := Except.ok ()
  homesRes := Except.ok (some [⟨"h1"⟩, ⟨"h2"⟩])
  devicesForHidRes := fun hid =>
    if hid = "h1" then Except.ok (some [⟨⟨1, 0, none⟩, [⟨1, 5, none⟩]⟩])
    else if hid = "h2" then Except.ok (some [⟨⟨2, 0, none⟩, []⟩])
    else Except.ok (some [])
  deviceStatusRes := fun hub =>
    if hub.dev.mid = 2 then Except.error ⟨true, "boom", none⟩ else Except.ok ()

/-- Login succeeds but the homes-list call raises. -/
def apiHomesFail : HomgarApi where
  loginRes := Except.ok ()
  homesRes := Except.error ⟨true, "homes down", none⟩
  devicesForHidRes := fun _ => Except.ok (some [])
  deviceStatusRes := fun _ => Except.ok ()

/-- The vendor login raises a `HomgarApiException` containing "403". -/
def apiBadCred : HomgarApi where
  loginRes := Except.error ⟨true, "HTTP 403 Forbidden", none⟩
  homesRes := Except.ok (some [])
  devicesForHidRes := fun _ => Except.ok (some [])
  deviceStatusRes := fun _ => Except.ok ()

/-- The vendor login raises an exception that is not a
`HomgarApiException`. -/
def apiGenericFail : HomgarApi where
  loginRes := Except.error ⟨false, "weird failure", none⟩
  homesRes := Except.ok (some [])
  devicesForHidRes := fun _ => Except.ok (some [])
  deviceStatusRes := fun _ => Except.ok ()

/-- Scenario home A, which owns the single hub. -/
def homeA : Home := ⟨"hA"⟩

/-- Scenario home B, which owns no hubs. -/
def homeB : Home := ⟨"hB"⟩

/-- Scenario hub with `mid = 7` and two sub-devices. -/
def hubA : Hub := ⟨⟨7, 0, none⟩, [⟨7, 1, none⟩, ⟨7, 2, none⟩]⟩

/-- Hub lists per scenario home: home A has `hubA`, home B none. -/
def hubsOfScenario : Home → List Hub :=
  fun h => if h.hid = "hA" then [hubA] else []

/-- The 2-homes / 1-hub / 2-sub-devices scenario oracle; every call
succeeds. -/
def apiScenario : HomgarApi where
  loginRes := Except.ok ()
  homesRes := Except.ok (some [homeA, homeB])
  devicesForHidRes := fun hid =>
    if hid = "hA" then Except.ok (some [hubA]) else Except.ok (some [])
  deviceStatusRes := fun _ => Except.ok ()

/-- A fresh coordinator state: no failures recorded, empty lists. -/
def st0 : CoordState := ⟨⟨0, 0⟩, [], []⟩

/-- A sensor entity bound to the scenario sub-device `(7, 1)`. -/
def sensorW : HomgarSensor := ⟨⟨7, 1, none⟩, tempValueFn⟩

/-! Theorems. -/

/-- C5, counterexample: at attempt `n = 0` with jitter `j = 1/4`
(inside `[0.1, 0.5]`), the code returns `1`, while the claimed
formula `clamp(2^n, 1, 60) * j` gives `1/4`: the floor at 1 second
is applied after the jitter multiplication, not before. -/
theorem calculateBackoffDelay_formula_counterexample :
    calculateBackoffDelay 0 (1 / 4) = 1
    ∧ max MIN_BACKOFF_DELAY (min MAX_BACKOFF_DELAY ((2 : ℚ) ^ (0 : Nat))) * (1 / 4)
        = 1 / 4
    ∧ (1 : ℚ) ≠ 1 / 4
    ∧ (1 / 10 : ℚ) ≤ 1 / 4 ∧ (1 / 4 : ℚ) ≤ 1 / 2 := by
  refine ⟨?_, ?_, by norm_num, by norm_num, by norm_num⟩
  · norm_num [calculateBackoffDelay, MIN_BACKOFF_DELAY, MAX_BACKOFF_DELAY]
  · norm_num [MIN_BACKOFF_DELAY, MAX_BACKOFF_DELAY]

/-- C5, amended: for every attempt `n` and jitter `j ∈ [0.1, 0.5]`,
the backoff delay equals `max(1, clamp(2^n, 1, 60) * j)` — the floor
at 1 second is applied to the jittered product — and the returned
delay is always at least 1 and at most 60 seconds. -/
theorem calculateBackoffDelay_bounds (n : Nat) (j : ℚ)
    (h1 : 1 / 10 ≤ j) (h2 : j ≤ 1 / 2) :
    calculateBackoffDelay n j
      = max MIN_BACKOFF_DELAY
          (max 1 (min MAX_BACKOFF_DELAY ((2 : ℚ) ^ n)) * j)
    ∧ MIN_BACKOFF_DELAY ≤ calculateBackoffDelay n j
    ∧ calculateBackoffDelay n j ≤ MAX_BACKOFF_DELAY := by
  have hpow : (1 : ℚ) ≤ (2 : ℚ) ^ n := one_le_pow₀ (by norm_num)
  have hclamp : max 1 (min MAX_BACKOFF_DELAY ((2 : ℚ) ^ n))
      = min MAX_BACKOFF_DELAY ((2 : ℚ) ^ n) := by
    refine max_eq_right (le_min ?_ hpow)
    norm_num [MAX_BACKOFF_DELAY]
  have hmin1 : (1 : ℚ) ≤ min MAX_BACKOFF_DELAY ((2 : ℚ) ^ n) := by
    rw [← hclamp]; exact le_max_left _ _
  have hminle : min MAX_BACKOFF_DELAY ((2 : ℚ) ^ n) ≤ 60 := by
    simp [MAX_BACKOFF_DELAY]
  refine ⟨by rw [hclamp]; rfl, le_max_left _ _, ?_⟩
  have hj0 : (0 : ℚ) ≤ j := le_trans (by norm_num) h1
  have hprod : min MAX_BACKOFF_DELAY ((2 : ℚ) ^ n) * j ≤ 60 := by
    nlinarith
  simp only [calculateBackoffDelay, MAX_BACKOFF_DELAY, MIN_BACKOFF_DELAY] at *
  exact max_le (by norm_num) hprod

/-- C5, witness for the amended theorem at `n = 3`, `j = 1/2`. -/
theorem calculateBackoffDelay_bounds_witness :
    (calculateBackoffDelay 3 (1 / 2)
      = max MIN_BACKOFF_DELAY
          (max 1 (min MAX_BACKOFF_DELAY ((2 : ℚ) ^ (3 : Nat))) * (1 / 2))
    ∧ MIN_BACKOFF_DELAY ≤ calculateBackoffDelay 3 (1 / 2)
    ∧ calculateBackoffDelay 3 (1 / 2) ≤ MAX_BACKOFF_DELAY)
    ∧ calculateBackoffDelay 3 (1 / 2) = 4 :=
  ⟨calculateBackoffDelay_bounds 3 (1 / 2) (by norm_num) (by norm_num),
   by norm_num [calculateBackoffDelay, MIN_BACKOFF_DELAY, MAX_BACKOFF_DELAY]⟩

/-- C6, counterexample: the temperature helper applied to the raw
field value 295150 does not return 21.0 degrees. -/
theorem tempFromMilliKelvin_295150_ne_21 :
    tempFromMilliKelvin 295150 ≠ 21 := by
  norm_num [tempFromMilliKelvin, pyRound1, roundHalfEven]

/-- C6, amended: the temperature helper applied to the raw integer
field value 295150 (millikelvin) returns 22.0 degrees Celsius
(295.15 K − 273.15 = 22.0), rounded to 1 decimal place; the sensor
value lambda agrees. -/
theorem tempFromMilliKelvin_295150_eq_22 :
    tempFromMilliKelvin 295150 = 22
    ∧ tempValueFn ⟨7, 1, some 295150⟩ = some 22 := by
  constructor
  · norm_num [tempFromMilliKelvin, pyRound1, roundHalfEven]
  · norm_num [tempValueFn, tempFromMilliKelvin, pyRound1, roundHalfEven]

/-- C2, counterexample: in the state `failureCount = 3`,
`lastFailureAt = 0`, at `now = 10` with jitter `1/2`, the rate-limit
error carries the jittered backoff `4`, while the remaining wait time
of the 300-second cooldown is `290`: the error does not carry the
remaining wait time. -/
theorem ensureLoggedIn_rate_limit_payload_counterexample :
    (ensureLoggedIn apiAllOk 10 (1 / 2) ⟨0, 3⟩).1
      = Except.error
          ⟨true, "Too many login failures, please wait N seconds before retrying",
            some 4⟩
    ∧ LOGIN_RETRY_TIMEOUT - ((10 : ℚ) - 0) = 290
    ∧ (4 : ℚ) ≠ 290 := by
  refine ⟨?_, by norm_num [LOGIN_RETRY_TIMEOUT], by norm_num⟩
  norm_num [ensureLoggedIn, MAX_LOGIN_RETRIES, LOGIN_RETRY_TIMEOUT,
    calculateBackoffDelay, MIN_BACKOFF_DELAY, MAX_BACKOFF_DELAY,
    pyRound1, roundHalfEven]

/-- C2, amended: whenever the retry counter is at least 3, (a) if
less than 300 seconds have passed since the last recorded attempt,
`ensure_logged_in` fails immediately with the rate-limit error — its
numeric payload is the jittered backoff delay for the current
counter, not the remaining cooldown time — without invoking the
vendor login (the result is the same for every vendor oracle) and
without touching the state; (b) if 300 seconds or more have passed,
the call behaves exactly as with the retry counter reset to 0, and in
particular a successful vendor login succeeds. -/
theorem ensureLoggedIn_rate_limited_behavior (api : HomgarApi)
    (now jitter : ℚ) (st : ClientState)
    (hcnt : MAX_LOGIN_RETRIES ≤ st.loginRetryCount) :
    (now - st.lastLoginTime < LOGIN_RETRY_TIMEOUT →
      (∀ api2 : HomgarApi,
        ensureLoggedIn api2 now jitter st = ensureLoggedIn api now jitter st)
      ∧ ensureLoggedIn api now jitter st
          = (Except.error
              ⟨true, "Too many login failures, please wait N seconds before retrying",
                some (pyRound1 (calculateBackoffDelay st.loginRetryCount jitter))⟩,
             st))
    ∧ (LOGIN_RETRY_TIMEOUT ≤ now - st.lastLoginTime →
      ensureLoggedIn api now jitter st
        = ensureLoggedIn api now jitter { st with loginRetryCount := 0 }
      ∧ (api.loginRes = Except.ok () →
          (ensureLoggedIn api now jitter st).1 = Except.ok ())) := by
  constructor
  · intro ht
    constructor
    · intro api2
      simp [ensureLoggedIn, hcnt, ht]
    · simp [ensureLoggedIn, hcnt, ht]
  · intro ht
    have hnlt : ¬ now - st.lastLoginTime < LOGIN_RETRY_TIMEOUT := not_lt.mpr ht
    have hz : ¬ MAX_LOGIN_RETRIES ≤ (0 : Nat) := by
      norm_num [MAX_LOGIN_RETRIES]
    constructor
    · simp [ensureLoggedIn, hcnt, hnlt, hz]
    · intro hok
      simp [ensureLoggedIn, hcnt, hnlt, hok]

/-- C2, witness for the amended theorem: counter 4, last attempt at
time 0; at `now = 20` the call is rate-limited, at `now = 400` the
cooldown has elapsed and a successful vendor login goes through. -/
theorem ensureLoggedIn_rate_limited_witness :
    (ensureLoggedIn apiAllOk 20 (1 / 4) ⟨0, 4⟩
        = (Except.error
            ⟨true, "Too many login failures, please wait N seconds before retrying",
              some (pyRound1 (calculateBackoffDelay 4 (1 / 4)))⟩,
           ⟨0, 4⟩))
    ∧ (ensureLoggedIn apiAllOk 400 (1 / 4) ⟨0, 4⟩).1 = Except.ok () :=
  ⟨((ensureLoggedIn_rate_limited_behavior apiAllOk 20 (1 / 4) ⟨0, 4⟩
      (by norm_num [MAX_LOGIN_RETRIES])).1
      (by norm_num [LOGIN_RETRY_TIMEOUT])).2,
   ((ensureLoggedIn_rate_limited_behavior apiAllOk 400 (1 / 4) ⟨0, 4⟩
      (by norm_num [MAX_LOGIN_RETRIES])).2
      (by norm_num [LOGIN_RETRY_TIMEOUT])).2 rfl⟩

/-- C3: for every vendor-raised `HomgarApiException` login failure in
a state from which the login attempt is actually made, the error is
re-raised according to the lowercased-text classification — the
authentication indicators give "Invalid credentials", otherwise the
connection indicators give "Connection timeout", otherwise the
original error is re-raised — and the failure counter is incremented
by one from its value at the attempt, with the failure time set to
the current time. -/
theorem ensureLoggedIn_classifies_vendor_errors (api : HomgarApi)
    (now jitter : ℚ) (st : ClientState) (e : RaisedErr)
    (hreach : ¬(MAX_LOGIN_RETRIES ≤ st.loginRetryCount ∧
        now - st.lastLoginTime < LOGIN_RETRY_TIMEOUT))
    (herr : api.loginRes = Except.error e)
    (hapi : e.isApi = true) :
    (ensureLoggedIn api now jitter st).1
      = Except.error
          (if isAuthenticationError (strToLower e.msg) then
            ⟨true, "Invalid credentials", none⟩
          else if isConnectionError (strToLower e.msg) then
            ⟨true, "Connection timeout", none⟩
          else e)
    ∧ (ensureLoggedIn api now jitter st).2.loginRetryCount
        = (if MAX_LOGIN_RETRIES ≤ st.loginRetryCount then 0
           else st.loginRetryCount) + 1
    ∧ (ensureLoggedIn api now jitter st).2.lastLoginTime = now := by
  simp only [ensureLoggedIn, if_neg hreach, herr, hapi]
  by_cases hc : MAX_LOGIN_RETRIES ≤ st.loginRetryCount <;>
    by_cases ha : isAuthenticationError (strToLower e.msg) = true <;>
    by_cases hco : isConnectionError (strToLower e.msg) = true <;>
    simp [hc, ha, hco]

/-- C3, witness: a vendor `HomgarApiException` with text
"HTTP 403 Forbidden" from a fresh state is re-raised as
"Invalid credentials", the counter goes to 1 and the time is
recorded. -/
theorem ensureLoggedIn_classifies_witness :
    (ensureLoggedIn apiBadCred 50 (1 / 4) ⟨0, 0⟩).1
      = Except.error
          (if isAuthenticationError (strToLower "HTTP 403 Forbidden") then
            ⟨true, "Invalid credentials", none⟩
          else if isConnectionError (strToLower "HTTP 403 Forbidden") then
            ⟨true, "Connection timeout", none⟩
          else ⟨true, "HTTP 403 Forbidden", none⟩)
    ∧ (ensureLoggedIn apiBadCred 50 (1 / 4) ⟨0, 0⟩).2.loginRetryCount
        = (if MAX_LOGIN_RETRIES ≤ (0 : Nat) then 0 else 0) + 1
    ∧ (ensureLoggedIn apiBadCred 50 (1 / 4) ⟨0, 0⟩).2.lastLoginTime = 50 :=
  ensureLoggedIn_classifies_vendor_errors apiBadCred 50 (1 / 4) ⟨0, 0⟩
    ⟨true, "HTTP 403 Forbidden", none⟩
    (by norm_num [MAX_LOGIN_RETRIES]) rfl rfl

/-- C10: every exception escaping `ensure_logged_in` is a
`HomgarApiException`; when the vendor login is reached and fails, a
non-`HomgarApiException` error is wrapped as "Login failed: ...",
the retry counter becomes its value at the attempt plus one and the
attempt time is recorded; when the vendor login is reached and
succeeds, the counter is reset to zero. -/
theorem ensureLoggedIn_exception_contract (api : HomgarApi)
    (now jitter : ℚ) (st : ClientState) :
    (∀ e, (ensureLoggedIn api now jitter st).1 = Except.error e →
        e.isApi = true)
    ∧ (∀ e, ¬(MAX_LOGIN_RETRIES ≤ st.loginRetryCount ∧
          now - st.lastLoginTime < LOGIN_RETRY_TIMEOUT) →
        api.loginRes = Except.error e →
          (ensureLoggedIn api now jitter st).2.loginRetryCount
              = (if MAX_LOGIN_RETRIES ≤ st.loginRetryCount then 0
                 else st.loginRetryCount) + 1
          ∧ (ensureLoggedIn api now jitter st).2.lastLoginTime = now
          ∧ (e.isApi = false →
              (ensureLoggedIn api now jitter st).1
                = Except.error ⟨true, "Login failed: " ++ e.msg, none⟩))
    ∧ (¬(MAX_LOGIN_RETRIES ≤ st.loginRetryCount ∧
          now - st.lastLoginTime < LOGIN_RETRY_TIMEOUT) →
        api.loginRes = Except.ok () →
          (ensureLoggedIn api now jitter st).1 = Except.ok ()
          ∧ (ensureLoggedIn api now jitter st).2.loginRetryCount = 0
          ∧ (ensureLoggedIn api now jitter st).2.lastLoginTime = now) := by
  refine ⟨?_, ?_, ?_⟩
  · intro e he
    by_cases hrl : MAX_LOGIN_RETRIES ≤ st.loginRetryCount ∧
        now - st.lastLoginTime < LOGIN_RETRY_TIMEOUT
    · simp only [ensureLoggedIn, if_pos hrl] at he
      injection he with h
      exact h ▸ rfl
    · simp only [ensureLoggedIn, if_neg hrl] at he
      cases hres : api.loginRes with
      | ok u => rw [hres] at he; simp_all
      | error err =>
        rw [hres] at he
        by_cases hia : err.isApi = true <;>
          by_cases ha : isAuthenticationError (strToLower err.msg) = true <;>
          by_cases hco : isConnectionError (strToLower err.msg) = true <;>
          simp only [hia, ha, hco, if_true, if_false,
            Bool.false_eq_true] at he <;>
          injection he with h <;> simp [← h, hia]
  · intro e hreach herr
    simp only [ensureLoggedIn, if_neg hreach, herr]
    by_cases hc : MAX_LOGIN_RETRIES ≤ st.loginRetryCount <;>
      by_cases hia : e.isApi = true <;>
      by_cases ha : isAuthenticationError (strToLower e.msg) = true <;>
      by_cases hco : isConnectionError (strToLower e.msg) = true <;>
      simp [hc, hia, ha, hco]
  · intro hreach hok
    simp [ensureLoggedIn, if_neg hreach, hok]

/-- C1, counterexample: two homes with one hub each; the status call
for the second hub raises while the homes-list call, the first hub's
branch and the login all succeed.  The cycle does not succeed with
the first hub's devices: `_update_data` has no per-branch handler, so
`_async_update_data` raises `UpdateFailed` and the scheduler keeps
the previous snapshot with the success flag cleared. -/
theorem updateData_hub_failure_counterexample :
    (asyncUpdateData apiHubFail 1000 (1 / 4) st0).1
      = UpdateResult.updateFailed "Error communicating with API: boom"
    ∧ (refreshCycle apiHubFail 1000 (1 / 4) (some ⟨[], []⟩) st0).1 = some ⟨[], []⟩
    ∧ (refreshCycle apiHubFail 1000 (1 / 4) (some ⟨[], []⟩) st0).2.1 = false := by
  refine ⟨by decide, by decide, by decide⟩

/-- C1, amended: when any call inside `_update_data` raises —
including the hub-list or status fetch of a single hub while every
other branch succeeds — the exception is not caught per branch:
`_async_update_data` raises `UpdateFailed` carrying the error
message, the whole cycle fails, and the scheduler retains the
previously published snapshot; no partial snapshot with the
remaining hubs' devices is produced. -/
theorem asyncUpdateData_error_of_updateData_error (api : HomgarApi)
    (now jitter : ℚ) (st : CoordState) (pub : Option Snapshot) (e : RaisedErr)
    (h : (updateData api now jitter st).1 = Except.error e) :
    (asyncUpdateData api now jitter st).1
      = UpdateResult.updateFailed
          ((if e.isApi then "Error communicating with API: "
            else "Unexpected error: ") ++ e.msg)
    ∧ refreshCycle api now jitter pub st
        = (pub, false, (updateData api now jitter st).2) := by
  cases hu : updateData api now jitter st with
  | mk res st1 =>
      rw [hu] at h
      simp only at h
      subst h
      constructor
      · simp [asyncUpdateData, hu]
      · simp [refreshCycle, asyncUpdateData, hu]

/-- C1, witness for the amended theorem at the concrete one-failing-
hub oracle. -/
theorem asyncUpdateData_error_witness :
    (asyncUpdateData apiHubFail 1000 (1 / 4) st0).1
      = UpdateResult.updateFailed
          ((if true then "Error communicating with API: "
            else "Unexpected error: ") ++ "boom")
    ∧ refreshCycle apiHubFail 1000 (1 / 4) none st0
        = (none, false, (updateData apiHubFail 1000 (1 / 4) st0).2) :=
  asyncUpdateData_error_of_updateData_error apiHubFail 1000 (1 / 4) st0 none
    ⟨true, "boom", none⟩ (by decide)

/-- C4: if the login step or the homes-list fetch raises during a
refresh cycle, `_async_update_data` raises `UpdateFailed`, the
coordinator's `homes` and `devices` attributes are left unchanged,
and the scheduler retains the previously published snapshot with the
success flag cleared. -/
theorem asyncUpdateData_homes_failure_keeps_snapshot (api : HomgarApi)
    (now jitter : ℚ) (st : CoordState) (pub : Option Snapshot)
    (hfail : (∃ e, (ensureLoggedIn api now jitter st.client).1 = Except.error e)
        ∨ (∃ e, getHomes api = Except.error e)) :
    (∃ m, (asyncUpdateData api now jitter st).1 = UpdateResult.updateFailed m)
    ∧ (asyncUpdateData api now jitter st).2.homes = st.homes
    ∧ (asyncUpdateData api now jitter st).2.devices = st.devices
    ∧ refreshCycle api now jitter pub st
        = (pub, false, (asyncUpdateData api now jitter st).2) := by
  cases hel : ensureLoggedIn api now jitter st.client with
  | mk r cl =>
      cases r with
      | error e =>
          refine ⟨⟨(if e.isApi then "Error communicating with API: "
              else "Unexpected error: ") ++ e.msg, ?_⟩, ?_, ?_, ?_⟩ <;>
            simp [asyncUpdateData, updateData, refreshCycle, hel]
      | ok u =>
          cases hfail with
          | inl hf =>
              obtain ⟨e, he⟩ := hf
              rw [hel] at he
              simp at he
          | inr hf =>
              obtain ⟨e, he⟩ := hf
              refine ⟨⟨(if e.isApi then "Error communicating with API: "
                  else "Unexpected error: ") ++ e.msg, ?_⟩, ?_, ?_, ?_⟩ <;>
                simp [asyncUpdateData, updateData, refreshCycle, hel, he]

/-- C4, witness at a concrete oracle whose homes-list call raises. -/
theorem asyncUpdateData_homes_failure_witness :
    (∃ m, (asyncUpdateData apiHomesFail 0 (1 / 4) st0).1
        = UpdateResult.updateFailed m)
    ∧ (asyncUpdateData apiHomesFail 0 (1 / 4) st0).2.homes = st0.homes
    ∧ (asyncUpdateData apiHomesFail 0 (1 / 4) st0).2.devices = st0.devices
    ∧ refreshCycle apiHomesFail 0 (1 / 4) none st0
        = (none, false, (asyncUpdateData apiHomesFail 0 (1 / 4) st0).2) :=
  asyncUpdateData_homes_failure_keeps_snapshot apiHomesFail 0 (1 / 4) st0 none
    (Or.inr ⟨⟨true, "homes down", none⟩, by decide⟩)

/-- The hub loop, when it succeeds, appends exactly the hub followed
by its sub-devices, for each hub in order. -/
theorem runHubs_ok_devices (api : HomgarApi) (hubs : List Hub)
    (acc devs : List DeviceRec) (u : Unit)
    (h : runHubs api hubs acc = (Except.ok u, devs)) :
    devs = acc ++ hubs.flatMap fun hub => hub.dev :: hub.subdevices := by
  induction hubs generalizing acc with
  | nil =>
      simp only [runHubs, Prod.mk.injEq] at h
      simp [h.2.symm]
  | cons hub rest ih =>
      simp only [runHubs] at h
      cases hst : getDeviceStatus api hub with
      | error e => rw [hst] at h; simp at h
      | ok v =>
          rw [hst] at h
          have := ih _ h
          simp [this, List.append_assoc]

/-- The home loop, when it succeeds and each home's hub fetch returns
a known hub list, appends exactly the per-home flattened blocks in
order. -/
theorem runHomes_ok_devices (api : HomgarApi) (homes : List Home)
    (hubsOf : Home → List Hub) (acc devs : List DeviceRec) (u : Unit)
    (hhubs : ∀ home ∈ homes,
      getDevicesForHid api home.hid = Except.ok (hubsOf home))
    (h : runHomes api homes acc = (Except.ok u, devs)) :
    devs = acc ++ homes.flatMap fun home =>
      (hubsOf home).flatMap fun hub => hub.dev :: hub.subdevices := by
  induction homes generalizing acc with
  | nil =>
      simp only [runHomes, Prod.mk.injEq] at h
      simp [h.2.symm]
  | cons home rest ih =>
      simp only [runHomes] at h
      rw [hhubs home (List.mem_cons_self home rest)] at h
      simp only at h
      cases hrh : runHubs api (hubsOf home) acc with
      | mk res devs1 =>
          rw [hrh] at h
          cases res with
          | error e => simp at h
          | ok v =>
              simp only at h
              have h1 := runHubs_ok_devices api (hubsOf home) acc devs1 v hrh
              have h2 := ih devs1
                (fun hm hmem => hhubs hm (List.mem_cons_of_mem home hmem)) h
              simp [h2, h1, List.append_assoc]

/-- On a fully successful `_update_data` run, the resulting `homes`
attribute is the fetched homes list and the `devices` attribute is
its two-level flattening. -/
theorem updateData_ok_devices (api : HomgarApi) (now jitter : ℚ)
    (st st1 : CoordState) (homes : List Home) (hubsOf : Home → List Hub)
    (hupd : updateData api now jitter st = (Except.ok (), st1))
    (hhomes : getHomes api = Except.ok homes)
    (hhubs : ∀ home ∈ homes,
      getDevicesForHid api home.hid = Except.ok (hubsOf home)) :
    st1.homes = homes
    ∧ st1.devices = homes.flatMap fun home =>
        (hubsOf home).flatMap fun hub => hub.dev :: hub.subdevices := by
  cases hel : ensureLoggedIn api now jitter st.client with
  | mk r cl =>
      cases r with
      | error e => simp [updateData, hel] at hupd
      | ok v =>
          simp only [updateData, hel, hhomes] at hupd
          cases hrun : runHomes api homes [] with
          | mk res devs =>
              rw [hrun] at hupd
              cases res with
              | error e => simp at hupd
              | ok w =>
                  simp only [Prod.mk.injEq] at hupd
                  have hst1 := hupd.2
                  have := runHomes_ok_devices api homes hubsOf [] devs w hhubs hrun
                  rw [← hst1]
                  simp [this]

/-- C7: for every fully successful refresh, the snapshot's devices
sequence is the concatenation, over homes in order and over each
home's hubs in order, of the hub itself followed by that hub's
sub-devices, and the snapshot's homes are the fetched homes. -/
theorem updateData_devices_flatten (api : HomgarApi) (now jitter : ℚ)
    (st st1 : CoordState) (homes : List Home) (hubsOf : Home → List Hub)
    (hupd : updateData api now jitter st = (Except.ok (), st1))
    (hhomes : getHomes api = Except.ok homes)
    (hhubs : ∀ home ∈ homes,
      getDevicesForHid api home.hid = Except.ok (hubsOf home)) :
    st1.devices = homes.flatMap fun home =>
      (hubsOf home).flatMap fun hub => hub.dev :: hub.subdevices := by
  exact (updateData_ok_devices api now jitter st st1 homes hubsOf
    hupd hhomes hhubs).2

/-- C7, witness: the scenario with 2 homes, home A with one hub and
two sub-devices and home B with none, produces 2 homes and 3 devices
(the hub followed by its sub-devices), all with mid 7. -/
theorem updateData_devices_flatten_witness :
    ((updateData apiScenario 0 (1 / 4) st0).2.devices
      = [homeA, homeB].flatMap fun home =>
          (hubsOfScenario home).flatMap fun hub => hub.dev :: hub.subdevices)
    ∧ (updateData apiScenario 0 (1 / 4) st0).2.homes.length = 2
    ∧ (updateData apiScenario 0 (1 / 4) st0).2.devices.length = 3
    ∧ ((updateData apiScenario 0 (1 / 4) st0).2.devices.all
        fun d => d.mid = 7) = true :=
  ⟨updateData_devices_flatten apiScenario 0 (1 / 4) st0
      (updateData apiScenario 0 (1 / 4) st0).2 [homeA, homeB] hubsOfScenario
      (by decide) (by decide) (by decide),
   by decide, by decide, by decide⟩

/-- Disjoint per-hub key blocks: if the hubs have pairwise distinct
mids, each sub-device carries its hub's mid, and the dids within a
hub's block are distinct, then the `(mid, did)` keys of the flattened
device list are pairwise distinct. -/
theorem nodup_keys_flatMap (hubs : List Hub)
    (hmids : (hubs.map fun h => h.dev.mid).Nodup)
    (hback : ∀ h ∈ hubs, ∀ sd ∈ h.subdevices, sd.mid = h.dev.mid)
    (hdids : ∀ h ∈ hubs, ((h.dev :: h.subdevices).map fun d => d.did).Nodup) :
    ((hubs.flatMap fun h => h.dev :: h.subdevices).map
      fun d => (d.mid, d.did)).Nodup := by
  induction hubs with
  | nil => simp
  | cons hub rest ih =>
      rw [List.map_cons, List.nodup_cons] at hmids
      obtain ⟨hnotmem, hrestmids⟩ := hmids
      simp only [List.flatMap_cons, List.map_append, List.nodup_append]
      refine ⟨?_, ?_, ?_⟩
      · have hd := hdids hub (List.mem_cons_self hub rest)
        have hsnd : (((hub.dev :: hub.subdevices).map fun d => (d.mid, d.did)).map
            Prod.snd).Nodup := by
          rw [List.map_map]
          exact hd
        exact hsnd.of_map _
      · refine ih hrestmids ?_ ?_
        · exact fun h hm => hback h (List.mem_cons_of_mem hub hm)
        · exact fun h hm => hdids h (List.mem_cons_of_mem hub hm)
      · intro k hk1 hk2
        obtain ⟨d1, hd1, hkeq1⟩ := List.mem_map.mp hk1
        obtain ⟨d2, hd2, hkeq2⟩ := List.mem_map.mp hk2
        obtain ⟨h2, hh2, hdin2⟩ := List.mem_flatMap.mp hd2
        have hmid1 : d1.mid = hub.dev.mid := by
          cases hd1 with
          | head => rfl
          | tail _ hmem => exact hback hub (List.mem_cons_self hub rest) d1 hmem
        have hmid2 : d2.mid = h2.dev.mid := by
          cases hdin2 with
          | head => rfl
          | tail _ hmem => exact hback h2 (List.mem_cons_of_mem hub hh2) d2 hmem
        have hne : hub.dev.mid ≠ h2.dev.mid := by
          intro hEq
          exact hnotmem (hEq ▸ List.mem_map.mpr ⟨h2, hh2, rfl⟩)
        have hdd : d1.mid = d2.mid := by
          have hkk := hkeq1.trans hkeq2.symm
          exact congrArg Prod.fst hkk
        exact hne (hmid1 ▸ hmid2 ▸ hdd)

/-- C8: for every snapshot produced by a fully successful refresh in
which the vendor data is well-formed — hubs across all homes have
pairwise distinct mids, each sub-device carries its hub's mid, and
the dids within one hub's block are distinct — the `(mid, did)`
identity pairs of the snapshot's devices are pairwise unique.  The
coordinator appends each fetched record exactly once, so it preserves
this uniqueness. -/
theorem updateData_devices_identity_nodup (api : HomgarApi)
    (now jitter : ℚ) (st st1 : CoordState) (homes : List Home)
    (hubsOf : Home → List Hub)
    (hupd : updateData api now jitter st = (Except.ok (), st1))
    (hhomes : getHomes api = Except.ok homes)
    (hhubs : ∀ home ∈ homes,
      getDevicesForHid api home.hid = Except.ok (hubsOf home))
    (hmids : ((homes.flatMap hubsOf).map fun h => h.dev.mid).Nodup)
    (hback : ∀ h ∈ homes.flatMap hubsOf, ∀ sd ∈ h.subdevices,
      sd.mid = h.dev.mid)
    (hdids : ∀ h ∈ homes.flatMap hubsOf,
      ((h.dev :: h.subdevices).map fun d => d.did).Nodup) :
    (st1.devices.map fun d => (d.mid, d.did)).Nodup := by
  have hflat := (updateData_ok_devices api now jitter st st1 homes hubsOf
    hupd hhomes hhubs).2
  rw [hflat, ← List.flatMap_assoc]
  exact nodup_keys_flatMap (homes.flatMap hubsOf) hmids hback hdids

/-- C8, witness at the scenario snapshot: the three devices carry the
distinct keys (7,0), (7,1), (7,2). -/
theorem updateData_devices_identity_nodup_witness :
    (((updateData apiScenario 0 (1 / 4) st0).2.devices.map
      fun d => (d.mid, d.did)).Nodup) :=
  updateData_devices_identity_nodup apiScenario 0 (1 / 4) st0
    (updateData apiScenario 0 (1 / 4) st0).2 [homeA, homeB] hubsOfScenario
    (by decide) (by decide) (by decide) (by decide) (by decide) (by decide)

/-- C10, witness: a non-`HomgarApiException` login failure from a
fresh state is wrapped as "Login failed: weird failure", the counter
goes to 1 and the time is recorded. -/
theorem ensureLoggedIn_exception_contract_witness :
    (ensureLoggedIn apiGenericFail 5 (1 / 4) ⟨0, 0⟩).2.loginRetryCount
        = (if MAX_LOGIN_RETRIES ≤ (0 : Nat) then 0 else 0) + 1
    ∧ (ensureLoggedIn apiGenericFail 5 (1 / 4) ⟨0, 0⟩).2.lastLoginTime = 5
    ∧ ((false = false) →
        (ensureLoggedIn apiGenericFail 5 (1 / 4) ⟨0, 0⟩).1
          = Except.error ⟨true, "Login failed: " ++ "weird failure", none⟩) :=
  (ensureLoggedIn_exception_contract apiGenericFail 5 (1 / 4) ⟨0, 0⟩).2.1
    ⟨false, "weird failure", none⟩
    (by norm_num [MAX_LOGIN_RETRIES]) rfl

/-- C9: a sensor's `available` property equals the coordinator's
last-update-success flag — in particular it agrees between any two
coordinator states with the same flag, regardless of their device
lists — and a sensor whose device is absent from the current
snapshot has `native_value = None` while `available` is untouched by
that absence. -/
theorem sensorAvailable_last_update_success (coord coord2 : Coordinator)
    (s : HomgarSensor) :
    sensorAvailable coord s = coord.lastUpdateSuccess
    ∧ (coord.lastUpdateSuccess = coord2.lastUpdateSuccess →
        sensorAvailable coord s = sensorAvailable coord2 s)
    ∧ ((∀ d ∈ coord.dataDevices,
          ¬(d.mid = s.device.mid ∧ d.did = s.device.did)) →
        nativeValue coord s = none) := by
  refine ⟨rfl, fun h => h, fun habs => ?_⟩
  have hfind : coord.dataDevices.find?
      (fun d => d.mid = s.device.mid && d.did = s.device.did) = none := by
    rw [List.find?_eq_none]
    intro d hd
    simp only [Bool.and_eq_true, decide_eq_true_eq]
    exact fun hc => habs d hd ⟨hc.1, hc.2⟩
  simp [nativeValue, hfind]

/-- C9, witness: with an empty snapshot and a successful last update,
the sensor bound to device (7, 1) is available and reports no value. -/
theorem sensorAvailable_witness :
    (sensorAvailable ⟨true, []⟩ sensorW = (true : Bool)
      ∧ ((true : Bool) = true →
          sensorAvailable ⟨true, []⟩ sensorW = sensorAvailable ⟨true, []⟩ sensorW)
      ∧ ((∀ d ∈ ([] : List DeviceRec),
            ¬(d.mid = sensorW.device.mid ∧ d.did = sensorW.device.did)) →
          nativeValue ⟨true, []⟩ sensorW = none))
    ∧ nativeValue ⟨true, []⟩ sensorW = none :=
  ⟨sensorAvailable_last_update_success ⟨true, []⟩ ⟨true, []⟩ sensorW,
   (sensorAvailable_last_update_success ⟨true, []⟩ ⟨true, []⟩ sensorW).2.2
     (by simp)⟩

end Homgar
